import Mathlib

/-!
Shallow embedding of the capacitive-touch input subsystem of the
BeatBox senior project (`src/touch_input.cpp`, `touch_input.h`).

The hardware bus is modelled as an oracle: each I2C transaction the code
may issue gets a field describing whether it succeeds and which bytes it
returns.  `int16_t` arithmetic is modelled on `Int` with explicit
wrap-around at 2^16; `uint8_t`/`uint16_t` values are `Nat` reduced mod
2^8 / 2^16 where the code truncates.
-/

namespace BeatBoxTouch

/-- `enum class TouchIC { NONE, FT6X36, GT911 }` from `touch_input.cpp`. -/
inductive TouchIC
  | NONE
  | FT6X36
  | GT911
deriving DecidableEq, Repr

/-- One I2C transaction issued through the repository's own helpers
(`i2c_read`, `i2c_write_u8`, `i2c_bus_recover`).  `read addr reg len`
is an `i2c_read` of `len` bytes at register `reg`; `write addr reg v`
is an `i2c_write_u8`; `recover` is a call to `i2c_bus_recover`. -/
inductive I2COp
  | read (addr reg len : Nat)
  | write (addr reg v : Nat)
  | recover
deriving DecidableEq, Repr

/-- `GT_REG_STATUS = 0x814E` ([7] = buffer ready, [3:0] = point count). -/
def GT_REG_STATUS : Nat := 0x814E

/-- `GT_REG_POINTS = 0x8150` (first point block). -/
def GT_REG_POINTS : Nat := 0x8150

/-- `GT_REG_PRODUCT_ID = 0x8140` (4 ASCII bytes, logged only). -/
def GT_REG_PRODUCT_ID : Nat := 0x8140

/-- Two's-complement wrap of an `Int` into the `int16_t` range
`[-32768, 32767]`; models the implementation-defined narrowing that
happens when `TOUCH_SCREEN_W - 1 - x` (computed in `int`) is stored
back into an `int16_t`. -/
def int16wrap (n : Int) : Int := (n + 32768) % 65536 - 32768

/-- Reinterpret a `uint16_t` value as `int16_t` (the `(int16_t)pr.x`
cast in `touch_read_cb`). -/
def int16ofU16 (u : Nat) : Int :=
  if u % 65536 < 32768 then (u % 65536 : Int) else (u % 65536 : Int) - 65536

/-- Orientation configuration: the compile-time `TOUCH_SWAP_XY`,
`TOUCH_INVERT_X`, `TOUCH_INVERT_Y`, `TOUCH_SCREEN_W`, `TOUCH_SCREEN_H`
constants from `touch_input.h` / build flags. -/
structure OrientCfg where
  swapXY : Bool
  invertX : Bool
  invertY : Bool
  w : Int
  h : Int
deriving DecidableEq, Repr

/-- The build's screen geometry: `TOUCH_SCREEN_W = 800`,
`TOUCH_SCREEN_H = 480`. -/
def screenW : Int := 800

def screenH : Int := 480

/-- The tail of `orient_map`: `if (v < 0) v = 0; if (v >= lim) v = lim - 1;`
for one axis (the code does x and y independently). -/
def clampAxis (v lim : Int) : Int :=
  let v' := if v < 0 then 0 else v
  if v' ≥ lim then lim - 1 else v'

/-- `orient_map` from `touch_input.cpp` lines 50–63: optional axis swap,
then optional X invert, then optional Y invert, then clamp both axes. -/
def orient_map (cfg : OrientCfg) (x0 y0 : Int) : Int × Int :=
  let xs := if cfg.swapXY then y0 else x0
  let ys := if cfg.swapXY then x0 else y0
  let xi := if cfg.invertX then int16wrap (cfg.w - 1 - xs) else xs
  let yi := if cfg.invertY then int16wrap (cfg.h - 1 - ys) else ys
  (clampAxis xi cfg.w, clampAxis yi cfg.h)

/-- Bus/oracle responses for the transactions `detect_ic` may issue.
`ackFT`, `ack5D`, `ack14` are the `i2c_probe` results for 0x38, 0x5D,
0x14.  `chipReadOk`/`chipByte` model `i2c_read(0x38, {0xA8}, 1, &chip, 1)`,
`vendReadOk`/`vendByte` model the 0xA3 read; the product-ID and config
reads on the GT911 branch are logged only. -/
structure DetectEnv where
  ackFT : Bool
  ack5D : Bool
  ack14 : Bool
  chipReadOk : Bool
  chipByte : Nat
  vendReadOk : Bool
  vendByte : Nat
  pidReadOk : Bool
  pidBytes : List Nat
  cfgReadOk : Bool
  cfgBytes : List Nat
deriving Repr

/-- `detect_ic` from `touch_input.cpp` lines 148–197, restricted to the
state it computes (`s_ic`, `s_addr`).  FT6x36 is selected only when 0x38
acknowledges, both one-byte ID reads succeed, and the chip byte is 0x06
or 0x36; otherwise GT911 is selected when 0x5D or 0x14 acknowledges
(preferring 0x5D); otherwise no IC.  The GT911 product-ID and config
reads are issued only for logging and do not enter the result. -/
def detect_ic (env : DetectEnv) : TouchIC × Nat :=
  if env.ackFT ∧ env.chipReadOk ∧ env.vendReadOk ∧
      (env.chipByte % 256 = 0x06 ∨ env.chipByte % 256 = 0x36) then
    (TouchIC.FT6X36, 0x38)
  else if env.ack5D ∨ env.ack14 then
    (TouchIC.GT911, if env.ack5D then 0x5D else 0x14)
  else
    (TouchIC.NONE, 0x00)

/-- The detection state of `touch_input.cpp`: `s_ic`, `s_addr`,
`s_gt_using_lib`. -/
structure TouchState where
  ic : TouchIC
  addr : Nat
  gtUsingLib : Bool
deriving DecidableEq, Repr

/-- The fields of `lv_indev_data_t` that `touch_read_cb` assigns:
`continue_reading`, `point.x`, `point.y`, and `state`
(`pressed = true` ↔ `LV_INDEV_STATE_PRESSED`). -/
structure IndevData where
  continueReading : Bool
  x : Int
  y : Int
  pressed : Bool
deriving DecidableEq, Repr

/-- The default result `touch_read_cb` writes first: released at (0,0),
no continued reading. -/
def releasedData : IndevData := ⟨false, 0, 0, false⟩

/-- Bus/oracle responses for one invocation of `touch_read_cb`.
`ftTouched`/`ftX`/`ftY` model `s_ft.touched()` / `s_ft.getPoint()`
(already `int16_t` values); `gtLibTouched`/`gtLibX`/`gtLibY` model the
optional GT911 library path.  For the raw GT911 path, `statusReadOk` /
`statusByte` model the 1-byte read at 0x814E, `pointReadOk` /
`pointBytes` the 8-byte read at 0x8150, and `ackWriteOk` the status
acknowledge write (its result is discarded by the code). -/
structure PollEnv where
  ftTouched : Bool
  ftX : Int
  ftY : Int
  gtLibTouched : Bool
  gtLibX : Int
  gtLibY : Int
  statusReadOk : Bool
  statusByte : Nat
  pointReadOk : Bool
  pointBytes : List Nat
  ackWriteOk : Bool
deriving Repr

/-- Byte `i` of a raw read buffer (wire bytes are `uint8_t`). -/
def byteAt (bs : List Nat) (i : Nat) : Nat := bs.getD i 0 % 256

/-- Little-endian `uint16_t` at offset `i` of a raw read buffer; models
laying the bytes over the packed `GTPointRaw` struct on the
little-endian ESP32 (`x` at offset 0, `y` at offset 2). -/
def le16At (bs : List Nat) (i : Nat) : Nat := byteAt bs i + 256 * byteAt bs (i + 1)

/-- `touch_read_cb` from `touch_input.cpp` lines 200–267, returning the
`lv_indev_data_t` fields it writes, the I2C transactions it issues
through the repository's helpers, and the detection state afterwards.
`haveLib` is the compile-time `HAVE_GT911_LIB` flag; `cfg` the
compile-time orientation configuration used by `orient_map`. -/
def touch_read_cb (haveLib : Bool) (cfg : OrientCfg) (st : TouchState)
    (env : PollEnv) : IndevData × List I2COp × TouchState :=
  match st.ic with
  | TouchIC.NONE => (releasedData, [], st)
  | TouchIC.FT6X36 =>
      if env.ftTouched then
        let p := orient_map cfg env.ftX env.ftY
        (⟨false, p.1, p.2, true⟩, [], st)
      else
        (releasedData, [], st)
  | TouchIC.GT911 =>
      if haveLib && st.gtUsingLib then
        if env.gtLibTouched then
          let p := orient_map cfg env.gtLibX env.gtLibY
          (⟨false, p.1, p.2, true⟩, [], st)
        else
          (releasedData, [], st)
      else
        if env.statusReadOk then
          let status := env.statusByte % 256
          if status.testBit 7 then
            if env.pointReadOk then
              let prx := le16At env.pointBytes 0
              let pry := le16At env.pointBytes 2
              let ops := [I2COp.read st.addr GT_REG_STATUS 1,
                          I2COp.read st.addr GT_REG_POINTS 8,
                          I2COp.write st.addr GT_REG_STATUS 0x00]
              if 0 < status % 16 ∧ prx ≠ 0xFFFF ∧ pry ≠ 0xFFFF then
                let p := orient_map cfg (int16ofU16 prx) (int16ofU16 pry)
                (⟨false, p.1, p.2, true⟩, ops, st)
              else
                (releasedData, ops, st)
            else
              (releasedData, [I2COp.read st.addr GT_REG_STATUS 1,
                              I2COp.read st.addr GT_REG_POINTS 8,
                              I2COp.write st.addr GT_REG_STATUS 0x00], st)
          else
            (releasedData, [I2COp.read st.addr GT_REG_STATUS 1], st)
        else
          (releasedData, [I2COp.read st.addr GT_REG_STATUS 1], st)

/-- Recognizes `i2c_write_u8` transactions in an operation trace. -/
def isWriteOp : I2COp → Bool
  | I2COp.write _ _ _ => true
  | _ => false

/-- The contact the active family's decoder extracts during one poll
(`none` when no valid contact): the FT6x36 library point when
`touched()`, the GT911 library point when the library path is active,
or the raw GT911 first point when the status read succeeded with the
ready bit set, the point read succeeded, the count nibble is nonzero
and neither coordinate is the 0xFFFF sentinel. -/
def family_contact (haveLib : Bool) (st : TouchState) (env : PollEnv) :
    Option (Int × Int) :=
  match st.ic with
  | TouchIC.NONE => none
  | TouchIC.FT6X36 =>
      if env.ftTouched then some (env.ftX, env.ftY) else none
  | TouchIC.GT911 =>
      if haveLib && st.gtUsingLib then
        if env.gtLibTouched then some (env.gtLibX, env.gtLibY) else none
      else
        if env.statusReadOk = true ∧ (env.statusByte % 256).testBit 7 = true ∧
            env.pointReadOk = true ∧ 0 < env.statusByte % 256 % 16 ∧
            le16At env.pointBytes 0 ≠ 0xFFFF ∧ le16At env.pointBytes 2 ≠ 0xFFFF then
          some (int16ofU16 (le16At env.pointBytes 0),
                int16ofU16 (le16At env.pointBytes 2))
        else none

/-- Oracle for `touch_init_and_register_lvgl`: the detection-phase bus
responses plus the results of `s_ft.begin(30)` and (when the GT911
library is compiled in) `s_gt.begin(...)`. -/
structure InitEnv where
  det : DetectEnv
  ftBeginOk : Bool
  gtBeginOk : Bool
deriving Repr

/-- `touch_init_and_register_lvgl` from `touch_input.cpp` lines
270–310, restricted to the state it leaves behind and whether an LVGL
input device with `touch_read_cb` was registered (the `s_ic != NONE`
branch).  On the FT6x36 path a failed `begin()` resets `s_ic` to NONE
but leaves `s_addr` untouched; on the GT911 path `s_gt_using_lib`
records whether the optional library initialized. -/
def touch_init_and_register_lvgl (haveLib : Bool) (env : InitEnv) :
    TouchState × Bool :=
  match detect_ic env.det with
  | (TouchIC.FT6X36, a) =>
      if env.ftBeginOk then (⟨TouchIC.FT6X36, a, false⟩, true)
      else (⟨TouchIC.NONE, a, false⟩, false)
  | (TouchIC.GT911, a) => (⟨TouchIC.GT911, a, haveLib && env.gtBeginOk⟩, true)
  | (TouchIC.NONE, a) => (⟨TouchIC.NONE, a, false⟩, false)

/-- `touch_present() { return s_ic != TouchIC::NONE; }` -/
def touch_present (st : TouchState) : Bool := decide (st.ic ≠ TouchIC.NONE)

/-- `touch_i2c_address() { return s_addr; }` -/
def touch_i2c_address (st : TouchState) : Nat := st.addr

/-- `touch_ic_name()` from `touch_input.cpp`. -/
def touch_ic_name (st : TouchState) : String :=
  match st.ic with
  | TouchIC.FT6X36 => "FT6x36"
  | TouchIC.GT911 => "GT911"
  | TouchIC.NONE => "NONE"

/-- Events on the physical bus during `i2c_bus_recover`: releasing /
re-initializing the Wire controller, setting its clock, one manual SCL
toggle cycle, and the synthetic STOP sequence. -/
inductive BusEv
  | wireEnd
  | wireBegin
  | setClock (hz : Nat)
  | sclPulse
  | stopSeq
deriving DecidableEq, Repr

/-- The SCL-toggle loop of `i2c_bus_recover`
(`for (i=0; i<16 && digitalRead(sda)==LOW; ++i) pulse`): `sda k` is the
k-th `digitalRead` of the data line, `idx` the next unconsumed read,
`fuel` the remaining iteration budget.  Returns the number of pulses
driven and the next read index. -/
def recoverLoop (sda : Nat → Bool) (idx : Nat) : Nat → Nat × Nat
  | 0 => (0, idx)
  | fuel + 1 =>
      if sda idx then (0, idx + 1)
      else
        ((recoverLoop sda (idx + 1) fuel).1 + 1, (recoverLoop sda (idx + 1) fuel).2)

/-- `i2c_bus_recover` from `touch_input.cpp` lines 86–115: returns the
boolean result, the number of SCL pulses driven, and the bus-event
trace.  If the first SDA read is high the function re-initializes Wire
at 100 kHz and returns true; otherwise it toggles SCL while SDA stays
low (at most 16 cycles), drives a STOP, re-initializes Wire at 100 kHz
and returns the final SDA read. -/
def i2c_bus_recover (sda : Nat → Bool) : Bool × Nat × List BusEv :=
  if sda 0 then
    (true, 0, [BusEv.wireEnd, BusEv.wireBegin, BusEv.setClock 100000])
  else
    (sda (recoverLoop sda 1 16).2, (recoverLoop sda 1 16).1,
     BusEv.wireEnd ::
       (List.replicate (recoverLoop sda 1 16).1 BusEv.sclPulse ++
        [BusEv.stopSeq, BusEv.wireBegin, BusEv.setClock 100000]))

theorem clampAxis_bounds (v lim : Int) (h : 0 < lim) :
    0 ≤ clampAxis v lim ∧ clampAxis v lim < lim := by
  unfold clampAxis
  dsimp only
  split_ifs <;> omega

/-- C3: after `orient_map`, both coordinates lie inside the screen, and
on an 800×480 screen with swap = true, invert-x = true, invert-y = false
the raw point (10, 20) maps to (779, 10). -/
theorem orient_map_bounds_and_example :
    (∀ (cfg : OrientCfg) (x y : Int), 0 < cfg.w → 0 < cfg.h →
      0 ≤ (orient_map cfg x y).1 ∧ (orient_map cfg x y).1 < cfg.w ∧
      0 ≤ (orient_map cfg x y).2 ∧ (orient_map cfg x y).2 < cfg.h) ∧
    orient_map ⟨true, true, false, 800, 480⟩ 10 20 = (779, 10) := by
  constructor
  · intro cfg x y hw hh
    have hx := clampAxis_bounds
      (if cfg.invertX then int16wrap (cfg.w - 1 - (if cfg.swapXY then y else x))
       else (if cfg.swapXY then y else x)) cfg.w hw
    have hy := clampAxis_bounds
      (if cfg.invertY then int16wrap (cfg.h - 1 - (if cfg.swapXY then x else y))
       else (if cfg.swapXY then x else y)) cfg.h hh
    unfold orient_map
    exact ⟨hx.1, hx.2, hy.1, hy.2⟩
  · decide

/-- Witness for C3: the bound theorem applied at a concrete
configuration and point. -/
theorem orient_map_bounds_witness :
    0 ≤ (orient_map ⟨false, true, true, 800, 480⟩ 5000 (-7)).1 ∧
    (orient_map ⟨false, true, true, 800, 480⟩ 5000 (-7)).1 < 800 ∧
    0 ≤ (orient_map ⟨false, true, true, 800, 480⟩ 5000 (-7)).2 ∧
    (orient_map ⟨false, true, true, 800, 480⟩ 5000 (-7)).2 < 480 :=
  orient_map_bounds_and_example.1 ⟨false, true, true, 800, 480⟩ 5000 (-7)
    (by decide) (by decide)

/-- C4: `detect_ic` selects FT6x36 exactly when 0x38 acknowledges, both
ID reads succeed and the chip byte is 0x06 or 0x36; when 0x38
acknowledges but that condition fails, FT6x36 is not selected and a
GT911 acknowledge still yields GT911. -/
theorem detect_familyA_iff (env : DetectEnv) :
    ((detect_ic env).1 = TouchIC.FT6X36 ↔
      env.ackFT = true ∧ env.chipReadOk = true ∧ env.vendReadOk = true ∧
        (env.chipByte % 256 = 0x06 ∨ env.chipByte % 256 = 0x36)) ∧
    (¬(env.ackFT = true ∧ env.chipReadOk = true ∧ env.vendReadOk = true ∧
        (env.chipByte % 256 = 0x06 ∨ env.chipByte % 256 = 0x36)) →
      (detect_ic env).1 ≠ TouchIC.FT6X36 ∧
      ((env.ack5D = true ∨ env.ack14 = true) →
        (detect_ic env).1 = TouchIC.GT911)) := by
  unfold detect_ic
  constructor
  · constructor
    · intro h
      by_contra hc
      rw [if_neg] at h
      · split_ifs at h <;> simp_all
      · intro ⟨h1, h2, h3, h4⟩
        exact hc ⟨h1, h2, h3, h4⟩
    · intro h
      rw [if_pos h]
  · intro h
    rw [if_neg h]
    constructor
    · split_ifs <;> simp
    · intro hgt
      rw [if_pos hgt]

/-- Witness for C4 at a concrete environment: 0x38 acknowledges but the
chip byte is 0xAB (neither 0x06 nor 0x36), and 0x5D acknowledges. -/
theorem detect_familyA_witness :
    (detect_ic ⟨true, true, false, true, 0xAB, true, 0x11, true, [], true, []⟩).1
      ≠ TouchIC.FT6X36 ∧
    (detect_ic ⟨true, true, false, true, 0xAB, true, 0x11, true, [], true, []⟩).1
      = TouchIC.GT911 := by
  have h := (detect_familyA_iff
    ⟨true, true, false, true, 0xAB, true, 0x11, true, [], true, []⟩).2
    (by decide)
  exact ⟨h.1, h.2 (by decide)⟩

/-- C6: when FT6x36 was not selected and at least one GT911 address
acknowledges, GT911 is selected at an acknowledging address (0x5D when
it acknowledges, else 0x14), and the diagnostic product-ID / config
reads have no influence on the selected identity or address. -/
theorem detect_familyB_selection (env : DetectEnv) :
    ((detect_ic env).1 ≠ TouchIC.FT6X36 →
      (env.ack5D = true ∨ env.ack14 = true) →
      (detect_ic env).1 = TouchIC.GT911 ∧
      (((detect_ic env).2 = 0x5D ∧ env.ack5D = true) ∨
       ((detect_ic env).2 = 0x14 ∧ env.ack14 = true))) ∧
    (∀ pOk pB cOk cB,
      detect_ic { env with pidReadOk := pOk, pidBytes := pB,
                           cfgReadOk := cOk, cfgBytes := cB }
        = detect_ic env) := by
  constructor
  · intro hnft hgt
    have hft : ¬(env.ackFT = true ∧ env.chipReadOk = true ∧ env.vendReadOk = true ∧
        (env.chipByte % 256 = 0x06 ∨ env.chipByte % 256 = 0x36)) := by
      intro hc
      exact hnft (by unfold detect_ic; rw [if_pos hc])
    unfold detect_ic
    rw [if_neg hft, if_pos hgt]
    refine ⟨rfl, ?_⟩
    by_cases h5 : env.ack5D = true
    · exact Or.inl ⟨by simp [h5], h5⟩
    · have h5' : env.ack5D = false := by simpa using h5
      rcases hgt with h | h
      · exact absurd h (by simp [h5'])
      · exact Or.inr ⟨by simp [h5'], h⟩
  · intro pOk pB cOk cB
    unfold detect_ic
    rfl

/-- Witness for C6: with 0x38 silent and only 0x14 acknowledging, GT911
is selected at 0x14. -/
theorem detect_familyB_witness :
    (detect_ic ⟨false, false, true, false, 0, false, 0, false, [], false, []⟩).1
      = TouchIC.GT911 ∧
    (((detect_ic ⟨false, false, true, false, 0, false, 0, false, [], false, []⟩).2 = 0x5D ∧
       False) ∨
     ((detect_ic ⟨false, false, true, false, 0, false, 0, false, [], false, []⟩).2 = 0x14 ∧
       True)) := by
  have h := (detect_familyB_selection
    ⟨false, false, true, false, 0, false, 0, false, [], false, []⟩).1
    (by decide) (Or.inr (by decide))
  refine ⟨h.1, ?_⟩
  rcases h.2 with ⟨ha, hb⟩ | ⟨ha, _⟩
  · exact absurd hb (by decide)
  · exact Or.inr ⟨ha, trivial⟩

/-- C1: in the raw GT911 path, a successful status read with the
buffer-ready bit (0x80) set leads to exactly one acknowledge write of
0x00 to the status register — whatever the point read yields — and a
clear buffer-ready bit leads to no further I2C traffic at all. -/
theorem gt_raw_ack_discipline (haveLib : Bool) (cfg : OrientCfg)
    (st : TouchState) (env : PollEnv)
    (hic : st.ic = TouchIC.GT911)
    (hraw : (haveLib && st.gtUsingLib) = false)
    (hok : env.statusReadOk = true) :
    (((env.statusByte % 256).testBit 7 = true →
      ((touch_read_cb haveLib cfg st env).2.1.filter isWriteOp)
        = [I2COp.write st.addr GT_REG_STATUS 0x00]) ∧
     ((env.statusByte % 256).testBit 7 = false →
      (touch_read_cb haveLib cfg st env).2.1
        = [I2COp.read st.addr GT_REG_STATUS 1])) := by
  obtain ⟨ic, addr, lib⟩ := st
  simp only at hic
  subst hic
  simp only [touch_read_cb, hraw, hok, Bool.false_eq_true, if_false, if_true]
  constructor
  · intro hready
    rw [if_pos hready]
    by_cases hp : env.pointReadOk = true
    · rw [if_pos hp]
      split_ifs <;> simp [isWriteOp, List.filter]
    · rw [if_neg hp]
      simp [isWriteOp, List.filter]
  · intro hready
    rw [if_neg (by simp [hready])]

/-- Witness for C1 at a concrete state and environment (status byte
0x80, point read failing). -/
theorem gt_raw_ack_witness :
    ((touch_read_cb false ⟨false, false, false, 800, 480⟩
        ⟨TouchIC.GT911, 0x5D, false⟩
        ⟨false, 0, 0, false, 0, 0, true, 0x80, false, [], true⟩).2.1.filter isWriteOp)
      = [I2COp.write 0x5D GT_REG_STATUS 0x00] :=
  (gt_raw_ack_discipline false ⟨false, false, false, 800, 480⟩
      ⟨TouchIC.GT911, 0x5D, false⟩
      ⟨false, 0, 0, false, 0, 0, true, 0x80, false, [], true⟩
      rfl rfl rfl).1 (by decide)

/-- C2: in the raw GT911 path a pressed contact is reported iff the
status read succeeded with the ready bit set, the point read succeeded,
the low nibble of the status byte is nonzero, and neither coordinate is
the sentinel 0xFFFF; moreover, for status byte 0x81 with an all-0xFF
point record, no contact is reported and the acknowledge write is still
issued. -/
theorem gt_raw_valid_iff (haveLib : Bool) (cfg : OrientCfg)
    (st : TouchState) (env : PollEnv)
    (hic : st.ic = TouchIC.GT911)
    (hraw : (haveLib && st.gtUsingLib) = false) :
    ((touch_read_cb haveLib cfg st env).1.pressed = true ↔
      (env.statusReadOk = true ∧
       (env.statusByte % 256).testBit 7 = true ∧
       env.pointReadOk = true ∧
       0 < env.statusByte % 256 % 16 ∧
       le16At env.pointBytes 0 ≠ 0xFFFF ∧
       le16At env.pointBytes 2 ≠ 0xFFFF)) ∧
    ((touch_read_cb false ⟨false, false, false, 800, 480⟩
        ⟨TouchIC.GT911, 0x5D, false⟩
        ⟨false, 0, 0, false, 0, 0, true, 0x81, true,
          [0xFF, 0xFF, 0xFF, 0xFF, 0xFF, 0xFF, 0xFF, 0xFF], true⟩).1.pressed
        = false ∧
     I2COp.write 0x5D GT_REG_STATUS 0x00 ∈
       (touch_read_cb false ⟨false, false, false, 800, 480⟩
        ⟨TouchIC.GT911, 0x5D, false⟩
        ⟨false, 0, 0, false, 0, 0, true, 0x81, true,
          [0xFF, 0xFF, 0xFF, 0xFF, 0xFF, 0xFF, 0xFF, 0xFF], true⟩).2.1) := by
  refine ⟨?_, by decide, by decide⟩
  obtain ⟨ic, addr, lib⟩ := st
  simp only at hic
  subst hic
  simp only [touch_read_cb, hraw, Bool.false_eq_true, if_false]
  by_cases hs : env.statusReadOk = true
  · rw [if_pos hs]
    by_cases hready : (env.statusByte % 256).testBit 7 = true
    · rw [if_pos hready]
      by_cases hp : env.pointReadOk = true
      · rw [if_pos hp]
        by_cases hv : 0 < env.statusByte % 256 % 16 ∧
            le16At env.pointBytes 0 ≠ 0xFFFF ∧ le16At env.pointBytes 2 ≠ 0xFFFF
        · rw [if_pos hv]
          simp only [true_iff]
          exact ⟨hs, hready, hp, hv.1, hv.2.1, hv.2.2⟩
        · rw [if_neg hv]
          simp only [releasedData, Bool.false_eq_true, false_iff]
          intro ⟨_, _, _, h1, h2, h3⟩
          exact hv ⟨h1, h2, h3⟩
      · rw [if_neg hp]
        simp only [releasedData, Bool.false_eq_true, false_iff]
        intro ⟨_, _, h, _⟩
        exact hp h
    · rw [if_neg hready]
      simp only [releasedData, Bool.false_eq_true, false_iff]
      intro ⟨_, h, _⟩
      exact hready h
  · rw [if_neg hs]
    simp only [releasedData, Bool.false_eq_true, false_iff]
    intro ⟨h, _⟩
    exact hs h

/-- Witness for C2 applied at a concrete valid contact (status 0x81,
point (100, 200)). -/
theorem gt_raw_valid_witness :
    (touch_read_cb false ⟨false, false, false, 800, 480⟩
      ⟨TouchIC.GT911, 0x5D, false⟩
      ⟨false, 0, 0, false, 0, 0, true, 0x81, true,
        [100, 0, 200, 0, 0, 0, 0, 0], true⟩).1.pressed = true :=
  ((gt_raw_valid_iff false ⟨false, false, false, 800, 480⟩
      ⟨TouchIC.GT911, 0x5D, false⟩
      ⟨false, 0, 0, false, 0, 0, true, 0x81, true,
        [100, 0, 200, 0, 0, 0, 0, 0], true⟩ rfl rfl).1).mpr
    ⟨rfl, by decide, rfl, by decide, by decide, by decide⟩

/-- C8: every poll yields either the default released result at (0,0)
or, exactly when the active family's decoder extracted a valid contact,
a pressed result at the orientation-mapped coordinates; and
`continue_reading` is false on every path (at most one point per
call). -/
theorem poll_single_point_contract (haveLib : Bool) (cfg : OrientCfg)
    (st : TouchState) (env : PollEnv) :
    ((touch_read_cb haveLib cfg st env).1 =
      (match family_contact haveLib st env with
       | none => releasedData
       | some (px, py) =>
           ⟨false, (orient_map cfg px py).1, (orient_map cfg px py).2, true⟩)) ∧
    (touch_read_cb haveLib cfg st env).1.continueReading = false := by
  have heq : (touch_read_cb haveLib cfg st env).1 =
      (match family_contact haveLib st env with
       | none => releasedData
       | some (px, py) =>
           ⟨false, (orient_map cfg px py).1, (orient_map cfg px py).2, true⟩) := by
    obtain ⟨ic, addr, lib⟩ := st
    cases ic with
    | NONE => rfl
    | FT6X36 =>
        by_cases hft : env.ftTouched = true <;>
          simp [touch_read_cb, family_contact, hft]
    | GT911 =>
        by_cases hlib : (haveLib && lib) = true
        · by_cases ht : env.gtLibTouched = true <;>
            simp [touch_read_cb, family_contact, hlib, ht]
        · have hlib' : (haveLib && lib) = false := by simpa using hlib
          by_cases hs : env.statusReadOk = true
          · by_cases hready : (env.statusByte % 256).testBit 7 = true
            · by_cases hp : env.pointReadOk = true
              · by_cases hv : 0 < env.statusByte % 256 % 16 ∧
                    le16At env.pointBytes 0 ≠ 0xFFFF ∧
                    le16At env.pointBytes 2 ≠ 0xFFFF
                · simp [touch_read_cb, family_contact, hlib', hs, hready, hp, hv]
                · simp [touch_read_cb, family_contact, hlib', hs, hready, hp, hv]
              · have hp' : env.pointReadOk = false := by simpa using hp
                simp [touch_read_cb, family_contact, hlib', hs, hready, hp']
            · have hready' : (env.statusByte % 256).testBit 7 = false := by
                simpa using hready
              simp [touch_read_cb, family_contact, hlib', hs, hready']
          · have hs' : env.statusReadOk = false := by simpa using hs
            simp [touch_read_cb, family_contact, hlib', hs']
  refine ⟨heq, ?_⟩
  rw [heq]
  cases hfc : family_contact haveLib st env with
  | none => rfl
  | some p => cases p; rfl

/-- C9: a poll never changes the detection state, never invokes the
bus-recovery procedure, and a failed status read in the raw GT911 path
yields only the default released report. -/
theorem poll_frame_conditions (haveLib : Bool) (cfg : OrientCfg)
    (st : TouchState) (env : PollEnv) :
    (touch_read_cb haveLib cfg st env).2.2 = st ∧
    I2COp.recover ∉ (touch_read_cb haveLib cfg st env).2.1 ∧
    (st.ic = TouchIC.GT911 → (haveLib && st.gtUsingLib) = false →
      env.statusReadOk = false →
      (touch_read_cb haveLib cfg st env).1 = releasedData) := by
  obtain ⟨ic, addr, lib⟩ := st
  cases ic with
  | NONE => simp [touch_read_cb]
  | FT6X36 =>
      by_cases hft : env.ftTouched = true <;> simp [touch_read_cb, hft]
  | GT911 =>
      by_cases hlib : (haveLib && lib) = true
      · by_cases ht : env.gtLibTouched = true <;>
          simp [touch_read_cb, hlib, ht]
      · have hlib' : (haveLib && lib) = false := by simpa using hlib
        by_cases hs : env.statusReadOk = true
        · by_cases hready : (env.statusByte % 256).testBit 7 = true
          · by_cases hp : env.pointReadOk = true
            · by_cases hv : 0 < env.statusByte % 256 % 16 ∧
                  le16At env.pointBytes 0 ≠ 0xFFFF ∧
                  le16At env.pointBytes 2 ≠ 0xFFFF
              · simp [touch_read_cb, hlib', hs, hready, hp, hv]
              · simp [touch_read_cb, hlib', hs, hready, hp, hv]
            · have hp' : env.pointReadOk = false := by simpa using hp
              simp [touch_read_cb, hlib', hs, hready, hp']
          · have hready' : (env.statusByte % 256).testBit 7 = false := by
              simpa using hready
            simp [touch_read_cb, hlib', hs, hready']
        · have hs' : env.statusReadOk = false := by simpa using hs
          simp [touch_read_cb, hlib', hs']

theorem detect_ft_addr (env : DetectEnv)
    (h : (detect_ic env).1 = TouchIC.FT6X36) : (detect_ic env).2 = 0x38 := by
  unfold detect_ic at *
  split_ifs at * <;> simp_all

/-- C5: when detection confirms neither family, `touch_present()` is
false and no LVGL input device is registered, so the poll callback
never enters the UI loop. -/
theorem no_device_no_callback (haveLib : Bool) (env : InitEnv)
    (h : (detect_ic env.det).1 = TouchIC.NONE) :
    touch_present (touch_init_and_register_lvgl haveLib env).1 = false ∧
    (touch_init_and_register_lvgl haveLib env).2 = false := by
  rcases hd : detect_ic env.det with ⟨i, a⟩
  rw [hd] at h
  simp only at h
  subst h
  simp [touch_init_and_register_lvgl, hd, touch_present]

/-- Witness for C5: nothing on the bus acknowledges. -/
theorem no_device_no_callback_witness :
    touch_present (touch_init_and_register_lvgl false
      ⟨⟨false, false, false, false, 0, false, 0, false, [], false, []⟩,
        true, true⟩).1 = false ∧
    (touch_init_and_register_lvgl false
      ⟨⟨false, false, false, false, 0, false, 0, false, [], false, []⟩,
        true, true⟩).2 = false :=
  no_device_no_callback false
    ⟨⟨false, false, false, false, 0, false, 0, false, [], false, []⟩,
      true, true⟩ (by decide)

/-- C10: when FT6x36 was detected but `s_ft.begin()` fails, the
identity resets to NONE (so `touch_present()` is false and nothing is
registered) while the resolved address stays 0x38 — it is not cleared
back to 0x00. -/
theorem ft_begin_failure_state (haveLib : Bool) (env : InitEnv)
    (hft : (detect_ic env.det).1 = TouchIC.FT6X36)
    (hfail : env.ftBeginOk = false) :
    touch_present (touch_init_and_register_lvgl haveLib env).1 = false ∧
    (touch_init_and_register_lvgl haveLib env).2 = false ∧
    touch_i2c_address (touch_init_and_register_lvgl haveLib env).1 = 0x38 ∧
    touch_i2c_address (touch_init_and_register_lvgl haveLib env).1 ≠ 0x00 := by
  have haddr := detect_ft_addr env.det hft
  rcases hd : detect_ic env.det with ⟨i, a⟩
  rw [hd] at hft haddr
  simp only at hft haddr
  subst hft
  subst haddr
  simp [touch_init_and_register_lvgl, hd, hfail, touch_present, touch_i2c_address]

/-- Witness for C10: 0x38 acknowledges with chip byte 0x36 but the
FT6x36 library fails to initialize. -/
theorem ft_begin_failure_witness :
    touch_present (touch_init_and_register_lvgl true
      ⟨⟨true, false, false, true, 0x36, true, 0x11, false, [], false, []⟩,
        false, true⟩).1 = false ∧
    (touch_init_and_register_lvgl true
      ⟨⟨true, false, false, true, 0x36, true, 0x11, false, [], false, []⟩,
        false, true⟩).2 = false ∧
    touch_i2c_address (touch_init_and_register_lvgl true
      ⟨⟨true, false, false, true, 0x36, true, 0x11, false, [], false, []⟩,
        false, true⟩).1 = 0x38 ∧
    touch_i2c_address (touch_init_and_register_lvgl true
      ⟨⟨true, false, false, true, 0x36, true, 0x11, false, [], false, []⟩,
        false, true⟩).1 ≠ 0x00 :=
  ft_begin_failure_state true
    ⟨⟨true, false, false, true, 0x36, true, 0x11, false, [], false, []⟩,
      false, true⟩ (by decide) rfl

theorem recoverLoop_le (sda : Nat → Bool) (fuel : Nat) :
    ∀ idx, (recoverLoop sda idx fuel).1 ≤ fuel := by
  induction fuel with
  | zero => intro idx; simp [recoverLoop]
  | succ n ih =>
      intro idx
      unfold recoverLoop
      split_ifs
      · simp
      · have := ih (idx + 1)
        simpa using Nat.succ_le_succ this

/-- C7: `i2c_bus_recover` succeeds exactly when the data line reads
high (immediately, or at the read after the toggle loop); the toggle
loop drives at most 16 pulses; and on every path the trace ends with a
Wire re-initialization at the conservative 100 kHz clock. -/
theorem bus_recover_contract (sda : Nat → Bool) :
    ((i2c_bus_recover sda).1 = true ↔
      (sda 0 = true ∨ sda ((recoverLoop sda 1 16).2) = true)) ∧
    (i2c_bus_recover sda).2.1 ≤ 16 ∧
    ∃ pre, (i2c_bus_recover sda).2.2
      = pre ++ [BusEv.wireBegin, BusEv.setClock 100000] := by
  by_cases h0 : sda 0 = true
  · refine ⟨by simp [i2c_bus_recover, h0], by simp [i2c_bus_recover, h0], ?_⟩
    exact ⟨[BusEv.wireEnd], by simp [i2c_bus_recover, h0]⟩
  · have h0' : sda 0 = false := by simpa using h0
    refine ⟨by simp [i2c_bus_recover, h0'], ?_, ?_⟩
    · simpa [i2c_bus_recover, h0'] using recoverLoop_le sda 16 1
    · refine ⟨BusEv.wireEnd ::
        (List.replicate (recoverLoop sda 1 16).1 BusEv.sclPulse ++
          [BusEv.stopSeq]), ?_⟩
      simp [i2c_bus_recover, h0']

end BeatBoxTouch
